import Mathlib

/-!
Shallow embedding of the chat-room / Discord-gateway synchronization logic of
the `cardboard` repository.

Sources embedded:
* `src/chat/models.py` — `ChatRoom` (create_channels, send_message,
  handle_tag_added, handle_puzzle_solved/unsolved) and `ChatRole`;
* `src/discord_lib/discord_chat_service.py` — `DiscordChatService`
  (send_message, create_forum_channel, _create_channel_impl,
  create_forum_post, add_tag_to_post, remove_tag_from_post,
  edit_forum_post_name, create_channel_url, announce, handle_tag_added).

Modelling conventions:
* nullable Django CharFields are `Option String`; Python truthiness of such a
  field is the `truthy` predicate below (`None` and `""` are falsy);
* an outbound HTTP request is a `GatewayReq` value; every operation returns
  the list of requests it attempted;
* a Python exception propagating to the caller is `Except.error`; exceptions
  swallowed by a `try/except` block are ordinary return paths;
* the remote server's behaviour for one HTTP exchange is an `HttpResp` value
  supplied as an explicit environment argument (`err` = the HTTP library
  raised, `malformed` = the body failed JSON decoding, `json d` = a decoded
  response dictionary).
-/

namespace Cardboard

/-- Remote tag id constants, `src/chat/models.py` lines 9-14. -/
def NEW_TAG : Nat := 1320198250489319434

def WORKING_TAG : Nat := 1320199606243561513

def EXTRACTING_TAG : Nat := 1320199821130203167

def STUCK_TAG : Nat := 1320199859961200710

def SOLVED_TAG : Nat := 1320199886192250990

def ABANDONED_TAG : Nat := 1320565939443470407

/-- Channel type constant, `src/discord_lib/discord_chat_service.py` line 15. -/
def CHANNEL_FORUM_TYPE : Nat := 15

/-- Python truthiness of a nullable string field: `None` and `""` are falsy. -/
def truthy : Option String → Bool
  | none => false
  | some s => !s.isEmpty

/-- Hunt settings consulted by the chat layer (`puzzle.hunt.settings`). -/
structure HuntSettings where
  discord_guild_id : Option String
  discord_puzzle_announcements_channel_id : Option String
deriving DecidableEq

/-- The slice of a meta-puzzle's `ChatRoom` that `create_channels` reads. -/
structure MetaChatRoom where
  forum_channel_id : Option String
deriving DecidableEq

/-- A meta-puzzle linked from a puzzle (`puzzle.metas`), with its creation
timestamp (used by `order_by("created_on")`) and its chat room (nullable). -/
structure MetaPuzzle where
  name : String
  created_on : Nat
  chat_room : Option MetaChatRoom
deriving DecidableEq

/-- The slice of a `Puzzle` read by the chat layer: name, meta flag, owning
hunt (an opaque id, used to scope `ChatRole` lookups), hunt settings, linked
metas, and the result of `puzzle.create_field_url_map()`. -/
structure Puzzle where
  name : String
  is_meta : Bool
  hunt : Nat
  settings : HuntSettings
  metas : List MetaPuzzle
  field_url_map : List (String × String)
deriving DecidableEq

/-- `chat.models.ChatRoom` persisted fields used by the embedded methods. -/
structure ChatRoom where
  name : String
  forum_channel_id : Option String
  post_id : Option String
  post_url : Option String
deriving DecidableEq

/-- `chat.models.ChatRole`: hunt-scoped mapping of a group name to a remote
role id (`src/chat/models.py` lines 271-287). -/
structure ChatRole where
  hunt : Nat
  name : String
  role_id : String
deriving DecidableEq

/-- The fields of a decoded JSON response dictionary that the gateway code
reads: `json_dict["id"]` and `json_dict["applied_tags"]` (each `none` when
the key is absent). -/
structure RespDict where
  id : Option String
  applied_tags : Option (List String)
deriving DecidableEq

/-- Behaviour of the remote server on one HTTP exchange. -/
inductive HttpResp where
  | err
  | malformed
  | json (d : RespDict)
deriving DecidableEq

/-- One outbound HTTP request attempted by the gateway client. -/
inductive GatewayReq where
  | postGuildChannels (guild_id name : String) (chan_type : Nat)
  | postThreads (forum_channel_id : Option String) (name content : String)
      (applied_tags : List String)
  | patchMessage (channel_id msg : String) (embedded_urls : List (String × String))
  | getChannel (channel_id : String)
  | patchAppliedTags (channel_id : String) (applied_tags : List String)
  | patchName (channel_id new_name : String)
deriving DecidableEq

/-- Whether an `Except` value is a normal return (no exception propagated). -/
def exceptOk {α : Type} : Except String α → Bool
  | .ok _ => true
  | .error _ => false

/-- `DiscordChatService.create_channel_url`
(`src/discord_lib/discord_chat_service.py` lines 272-275): raises when either
identifier is falsy, otherwise builds the channel URL. -/
def DiscordChatService.create_channel_url (guild_id channel_id : Option String) :
    Except String String :=
  if truthy guild_id = false || truthy channel_id = false then
    .error "Missing guild_id or channel_id"
  else
    .ok ("https://discord.com/channels/" ++ guild_id.getD "" ++ "/" ++ channel_id.getD "")

/-- `DiscordChatService.send_message` (lines 48-63): one PATCH attempt, whole
body inside `try/except`, so a raising request is caught and logged; the
outcome is the same normal return either way. -/
def DiscordChatService.send_message (net_ok : Bool) (channel_id msg : String)
    (embedded_urls : List (String × String)) : Except String (List GatewayReq) :=
  if net_ok then
    .ok [GatewayReq.patchMessage channel_id msg embedded_urls]
  else
    .ok [GatewayReq.patchMessage channel_id msg embedded_urls]

/-- `DiscordChatService.announce` (lines 65-68): forwards to `send_message`
when the announcements channel id is truthy, else does nothing.  Stated in
terms of the requests attempted (`send_message` attempts exactly one PATCH). -/
def DiscordChatService.announce (puzzle_announcements_id : Option String)
    (msg : String) (embedded_urls : List (String × String)) : List GatewayReq :=
  if truthy puzzle_announcements_id then
    [GatewayReq.patchMessage (puzzle_announcements_id.getD "") msg embedded_urls]
  else []

/-- `DiscordChatService._create_channel_impl` (lines 220-236): POSTs the
channel-creation request inside `try/except`; returns the decoded `id`, and
`none` when the request raised, the body was malformed, or the `id` key was
absent (all swallowed). -/
def DiscordChatService._create_channel_impl (resp : HttpResp) (guild_id name : String)
    (chan_type : Nat) : Except String (Option String × List GatewayReq) :=
  let reqs := [GatewayReq.postGuildChannels guild_id name chan_type]
  match resp with
  | .err => .ok (none, reqs)
  | .malformed => .ok (none, reqs)
  | .json d =>
    match d.id with
    | some cid => .ok (some cid, reqs)
    | none => .ok (none, reqs)

/-- `DiscordChatService.create_forum_channel` (lines 72-79): raises
`"Missing guild_id"` on a falsy guild id, else delegates to
`_create_channel_impl` with the forum channel type. -/
def DiscordChatService.create_forum_channel (resp : HttpResp) (guild_id : Option String)
    (forum_name : String) : Except String (Option String × List GatewayReq) :=
  if truthy guild_id = false then .error "Missing guild_id"
  else DiscordChatService._create_channel_impl resp (guild_id.getD "") forum_name
    CHANNEL_FORUM_TYPE

/-- `DiscordChatService.create_forum_post` (lines 97-129): POSTs a thread
under the forum channel, entirely inside `try/except`; on a decoded `id` it
builds the thread URL with `create_channel_url` (whose raise is caught by the
same `try`), returning the `(id, url)` pair; every failure path returns
`none`.  `guild_id` stands for `self.get_guild_id(puzzle)`. -/
def DiscordChatService.create_forum_post (resp : HttpResp) (guild_id : Option String)
    (forum_channel_id : Option String) (puzzle_name content : String)
    (tag_ids : Option (List Nat)) :
    Except String (Option (String × String) × List GatewayReq) :=
  let applied_tags := match tag_ids with
    | some ts => ts.map toString
    | none => []
  let reqs := [GatewayReq.postThreads forum_channel_id puzzle_name content applied_tags]
  match resp with
  | .err => .ok (none, reqs)
  | .malformed => .ok (none, reqs)
  | .json d =>
    match d.id with
    | some tid =>
      match DiscordChatService.create_channel_url guild_id (some tid) with
      | .ok url => .ok (some (tid, url), reqs)
      | .error _ => .ok (none, reqs)
    | none => .ok (none, reqs)

/-- `DiscordChatService.edit_forum_post_name` (lines 188-198): one PATCH
attempt inside `try/except`; the raising path is caught and logged. -/
def DiscordChatService.edit_forum_post_name (net_ok : Bool) (post_id new_name : String) :
    Except String (List GatewayReq) :=
  if net_ok then
    .ok [GatewayReq.patchName post_id new_name]
  else
    .ok [GatewayReq.patchName post_id new_name]

/-- Fault model for the GET + conditional PATCH pair inside
`add_tag_to_post` / `remove_tag_from_post`: whether the GET round-trip
succeeded (request and JSON decoding), whether the decoded dictionary carried
an `applied_tags` key, and whether the PATCH reached the remote. -/
structure TagEnv where
  get_resp_ok : Bool
  get_has_tags : Bool
  patch_ok : Bool
deriving DecidableEq

/-- `DiscordChatService.add_tag_to_post` (lines 135-160): no-op on a `None`
tag id; otherwise GET the post's `applied_tags` (the honest response reports
the remote's current tag list `remote`; an absent key defaults to `[]`), and
PATCH the extended list only when the tag is not already present.  The whole
body is inside `try/except`.  Returns the remote's resulting tag list and the
requests attempted. -/
def DiscordChatService.add_tag_to_post (env : TagEnv) (remote : List String)
    (post_id : String) (tag_id : Option Nat) :
    Except String (List String × List GatewayReq) :=
  match tag_id with
  | none => .ok (remote, [])
  | some t =>
    if env.get_resp_ok = false then
      .ok (remote, [GatewayReq.getChannel post_id])
    else
      let applied := if env.get_has_tags then remote else []
      if toString t ∈ applied then
        .ok (remote, [GatewayReq.getChannel post_id])
      else
        let newTags := applied ++ [toString t]
        let reqs := [GatewayReq.getChannel post_id,
                     GatewayReq.patchAppliedTags post_id newTags]
        if env.patch_ok then .ok (newTags, reqs) else .ok (remote, reqs)

/-- `DiscordChatService.remove_tag_from_post` (lines 162-186): symmetric to
`add_tag_to_post`, PATCHing the list with the first occurrence of the tag
removed, only when the tag is present. -/
def DiscordChatService.remove_tag_from_post (env : TagEnv) (remote : List String)
    (post_id : String) (tag_id : Option Nat) :
    Except String (List String × List GatewayReq) :=
  match tag_id with
  | none => .ok (remote, [])
  | some t =>
    if env.get_resp_ok = false then
      .ok (remote, [GatewayReq.getChannel post_id])
    else
      let applied := if env.get_has_tags then remote else []
      if toString t ∈ applied then
        let newTags := applied.erase (toString t)
        let reqs := [GatewayReq.getChannel post_id,
                     GatewayReq.patchAppliedTags post_id newTags]
        if env.patch_ok then .ok (newTags, reqs) else .ok (remote, reqs)
      else
        .ok (remote, [GatewayReq.getChannel post_id])

/-- Case normalization used to model Django's `name__iexact` lookup:
per-character lowercasing of the string. -/
def lowerStr (s : String) : String := ⟨s.data.map Char.toLower⟩

/-- `DiscordChatService.handle_tag_added` (lines 277-287): resolve the first
`ChatRole` matching the tag name case-insensitively within the puzzle's hunt
(`ChatRole.objects.filter(name__iexact=tag_name, hunt=puzzle.hunt).first()`,
modelled as a filter over the role table in database order) and, when found,
announce an @-mention of its role id. -/
def DiscordChatService.handle_tag_added (roles : List ChatRole)
    (puzzle_announcements_id : Option String) (puzzle : Puzzle) (tag_name : String) :
    List GatewayReq :=
  match (roles.filter
      (fun r => r.hunt == puzzle.hunt && lowerStr r.name == lowerStr tag_name)).head? with
  | some role =>
      DiscordChatService.announce puzzle_announcements_id
        (puzzle.name ++ " was tagged with <@&" ++ role.role_id ++ ">")
        puzzle.field_url_map
  | none => []

/-- Modelled from the spec: the priority tag name `PuzzleTag.HIGH_PRIORITY`
(`puzzles/puzzle_tag.py` is not under `src/`); a fixed tag name, distinct
from `LOW_PRIORITY`. -/
def HIGH_PRIORITY : String := "HIGH PRIORITY"

/-- Modelled from the spec: the priority tag name `PuzzleTag.LOW_PRIORITY`
(`puzzles/puzzle_tag.py` is not under `src/`); a fixed tag name, distinct
from `HIGH_PRIORITY`. -/
def LOW_PRIORITY : String := "LOW PRIORITY"

/-- Modelled from the spec: `chat.service.ChatService.create_post`
(`src/chat/service.py` is not under `src/`; only its caller
`ChatRoom.create_channels` and the Discord implementation are).  Spec §4.1
gives the contract `create_post(forum_id, title, body, tags, embeds) ->
(post_id, post_url)` with failures "caught at the call site, logged, and
swallowed — the operation returns without effect"; `chat/models.py` stores
the return value in the nullable `post_id` CharField and derives the URL
separately with `create_channel_url`, so the adapter is modelled as issuing
the thread-creation request and returning the created post's id, `none` when
the gateway suppressed a network/malformed-response failure (matching the
`id`-extraction of `DiscordChatService.create_forum_post`). -/
def create_post (resp : HttpResp) (forum_channel_id : Option String)
    (name content : String) (tag_ids : List Nat) :
    Option String × List GatewayReq :=
  let reqs := [GatewayReq.postThreads forum_channel_id name content
    (tag_ids.map toString)]
  match resp with
  | .err => (none, reqs)
  | .malformed => (none, reqs)
  | .json d => (d.id, reqs)

/-- Insertion step of the stable sort modelling Django's
`order_by("created_on")` (ascending; ties keep table order). -/
def insertByCreated (m : MetaPuzzle) : List MetaPuzzle → List MetaPuzzle
  | [] => [m]
  | x :: xs =>
    if m.created_on < x.created_on then m :: x :: xs
    else x :: insertByCreated m xs

/-- `puzzle.metas.order_by("created_on")`: stable insertion sort by the
meta-creation timestamp, ascending. -/
def order_by_created_on : List MetaPuzzle → List MetaPuzzle
  | [] => []
  | x :: xs => insertByCreated x (order_by_created_on xs)

/-- `ChatRoom._get_forum_channel_name` (`src/chat/models.py` lines 71-82):
the puzzle's own name for a meta-puzzle, else the oldest-created linked
meta's name, else `None`. -/
def ChatRoom._get_forum_channel_name (puzzle : Puzzle) : Option String :=
  if puzzle.is_meta then some puzzle.name
  else
    match order_by_created_on puzzle.metas with
    | [] => none
    | m :: _ => some m.name

/-- Gateway environment for one `create_channels` call: the remote's
behaviour on the forum-channel-creation exchange and on the post-creation
exchange. -/
structure GatewayEnv where
  forum_resp : HttpResp
  post_resp : HttpResp
deriving DecidableEq

/-- `ChatRoom.create_channels` (`src/chat/models.py` lines 84-112).
For a meta-puzzle with no stored forum channel id (`is None` check), create a
forum channel in the hunt's guild and store the returned id.  For a non-meta
puzzle: when a linked meta exists, its (oldest-created) meta's chat room is
non-null, and this room's post id `is None`, create a post under that meta
room's stored forum channel id tagged `NEW_TAG`, store the returned post id,
and store the URL built by `create_channel_url` — whose raise (on a falsy
guild id or post id) propagates, as does `create_forum_channel`'s
missing-guild raise.  Returns the updated room (the in-memory object that
`self.save(update_fields=...)` persists) and the gateway requests attempted. -/
def ChatRoom.create_channels (env : GatewayEnv) (puzzle : Puzzle) (room : ChatRoom) :
    Except String (ChatRoom × List GatewayReq) :=
  if puzzle.is_meta then
    if room.forum_channel_id = none then
      match DiscordChatService.create_forum_channel env.forum_resp
          puzzle.settings.discord_guild_id room.name with
      | .error e => .error e
      | .ok (fid, reqs) => .ok ({ room with forum_channel_id := fid }, reqs)
    else
      .ok (room, [])
  else
    match ChatRoom._get_forum_channel_name puzzle with
    | none => .ok (room, [])
    | some _ =>
      match order_by_created_on puzzle.metas with
      | [] => .ok (room, [])
      | m0 :: _ =>
        match m0.chat_room with
        | none => .ok (room, [])
        | some mcr =>
          if room.post_id = none then
            match create_post env.post_resp mcr.forum_channel_id puzzle.name "" [NEW_TAG] with
            | (pid, reqs) =>
              match DiscordChatService.create_channel_url
                  puzzle.settings.discord_guild_id pid with
              | .error e => .error e
              | .ok url =>
                .ok ({ room with post_id := pid, post_url := some url }, reqs)
          else
            .ok (room, [])

/-- An effect produced by a `ChatRoom` method: a message sent to the room's
own post via `service.send_message`, or a call forwarded to the
service-specific `handle_tag_added` hook. -/
inductive RoomEvent where
  | sendToPost (post_id msg : String) (embedded_urls : List (String × String))
  | forwardTagAdded (puzzle_announcements_id : Option String) (tag_name : String)
deriving DecidableEq

/-- Whether a `RoomEvent` is a forwarding to the service tag-added hook. -/
def RoomEvent.isForward : RoomEvent → Bool
  | .forwardTagAdded _ _ => true
  | _ => false

/-- `ChatRoom.send_message` (`src/chat/models.py` lines 193-201): no-op when
the stored post id is falsy, else forward message and embedded links to the
gateway's `send_message` once. -/
def ChatRoom.send_message (room : ChatRoom) (msg : String)
    (embedded_urls : List (String × String)) : List RoomEvent :=
  if truthy room.post_id then
    [RoomEvent.sendToPost (room.post_id.getD "") msg embedded_urls]
  else []

/-- `ChatRoom.handle_tag_added` (`src/chat/models.py` lines 236-245): a
priority tag sends a direct chat notification to the room's post and returns
early; any other tag is forwarded to the service-specific handler with the
hunt's announcements channel id. -/
def ChatRoom.handle_tag_added (room : ChatRoom) (puzzle : Puzzle) (tag_name : String) :
    List RoomEvent :=
  if tag_name = HIGH_PRIORITY ∨ tag_name = LOW_PRIORITY then
    ChatRoom.send_message room ("This puzzle was marked " ++ tag_name) []
  else
    [RoomEvent.forwardTagAdded
      puzzle.settings.discord_puzzle_announcements_channel_id tag_name]

/-- Modelled from the spec: `chat.service.ChatService.edit_post_tags`
(`src/chat/service.py` is not under `src/`).  Spec §4.2/§4.4: "replace remote
tag set on the post with {solved} or {working} respectively — an overwrite,
not a merge, of the tag set."  The remote state is the map from post id to
its applied tag list; the operation overwrites the addressed post's list. -/
def edit_post_tags (remote : String → List Nat) (post_id : String)
    (tags : List Nat) : String → List Nat :=
  fun c => if c = post_id then tags else remote c

/-- `ChatRoom.handle_puzzle_solved` (`src/chat/models.py` lines 259-263):
when a post id is stored (truthiness check), overwrite the post's remote tags
with `[SOLVED_TAG]`. -/
def ChatRoom.handle_puzzle_solved (room : ChatRoom) (remote : String → List Nat) :
    String → List Nat :=
  if truthy room.post_id then
    edit_post_tags remote (room.post_id.getD "") [SOLVED_TAG]
  else remote

/-- `ChatRoom.handle_puzzle_unsolved` (`src/chat/models.py` lines 265-269):
when a post id is stored, overwrite the post's remote tags with
`[WORKING_TAG]`. -/
def ChatRoom.handle_puzzle_unsolved (room : ChatRoom) (remote : String → List Nat) :
    String → List Nat :=
  if truthy room.post_id then
    edit_post_tags remote (room.post_id.getD "") [WORKING_TAG]
  else remote

/-- The first element of a filtered list is the first element satisfying the
predicate: bridges the source's `filter(...).first()` idiom with `find?`. -/
lemma filter_head?_eq_find? {α : Type} (p : α → Bool) (l : List α) :
    (l.filter p).head? = l.find? p := by
  induction l with
  | nil => rfl
  | cons a l ih =>
    cases h : p a <;> simp [List.filter_cons, List.find?_cons, h, ih]

/-- C5: for a meta-puzzle's ChatRoom with no stored forum-channel id, one
`create_channels` call (on a truthy guild id and a successful gateway
response carrying an id) issues exactly one forum-channel-creation request
scoped to the hunt's guild, and afterwards the room's forum-channel id is
non-null, set to the returned id. -/
theorem create_channels_meta_creates_forum
    (env : GatewayEnv) (puzzle : Puzzle) (room : ChatRoom) (d : RespDict) (g fid : String)
    (hmeta : puzzle.is_meta = true)
    (hnone : room.forum_channel_id = none)
    (hg : puzzle.settings.discord_guild_id = some g)
    (hgt : g.isEmpty = false)
    (hresp : env.forum_resp = HttpResp.json d)
    (hid : d.id = some fid) :
    ChatRoom.create_channels env puzzle room =
      .ok ({ room with forum_channel_id := some fid },
           [GatewayReq.postGuildChannels g room.name CHANNEL_FORUM_TYPE]) := by
  simp [ChatRoom.create_channels, hmeta, hnone, hg, hresp, hid,
        DiscordChatService.create_forum_channel, truthy, hgt,
        DiscordChatService._create_channel_impl]

/-- C5 witness: concrete meta-puzzle room, successful gateway. -/
theorem create_channels_meta_creates_forum_witness :
    ChatRoom.create_channels ⟨HttpResp.json ⟨some "f", none⟩, HttpResp.err⟩
      ⟨"Meta", true, 1, ⟨some "g", none⟩, [], []⟩
      ⟨"Meta", none, none, none⟩
    = .ok (⟨"Meta", some "f", none, none⟩,
        [GatewayReq.postGuildChannels "g" "Meta" CHANNEL_FORUM_TYPE]) :=
  create_channels_meta_creates_forum
    ⟨HttpResp.json ⟨some "f", none⟩, HttpResp.err⟩
    ⟨"Meta", true, 1, ⟨some "g", none⟩, [], []⟩
    ⟨"Meta", none, none, none⟩ ⟨some "f", none⟩ "g" "f"
    rfl rfl rfl rfl rfl rfl

/-- C4: a ChatRoom whose applicable identifier is already populated
(forum-channel id for a meta-puzzle, post id otherwise) makes
`create_channels` a no-op: no gateway request, no exception, identifiers
unchanged. -/
theorem create_channels_populated_no_op
    (env : GatewayEnv) (puzzle : Puzzle) (room : ChatRoom)
    (hm : puzzle.is_meta = true → room.forum_channel_id ≠ none)
    (hn : puzzle.is_meta = false → room.post_id ≠ none) :
    ChatRoom.create_channels env puzzle room = .ok (room, []) := by
  cases hb : puzzle.is_meta with
  | true =>
    have hfc := hm hb
    simp [ChatRoom.create_channels, hb, hfc]
  | false =>
    have hpost := hn hb
    cases horder : order_by_created_on puzzle.metas with
    | nil =>
      simp [ChatRoom.create_channels, ChatRoom._get_forum_channel_name, hb, horder]
    | cons m0 rest =>
      cases hcr : m0.chat_room with
      | none =>
        simp [ChatRoom.create_channels, ChatRoom._get_forum_channel_name, hb, horder, hcr]
      | some mcr =>
        simp [ChatRoom.create_channels, ChatRoom._get_forum_channel_name, hb, horder,
              hcr, hpost]

/-- C4 witness: meta room with a stored forum-channel id, and non-meta room
with a stored post id, both no-ops. -/
theorem create_channels_populated_no_op_witness :
    (ChatRoom.create_channels ⟨HttpResp.err, HttpResp.err⟩
        ⟨"Meta", true, 1, ⟨some "g", none⟩, [], []⟩
        ⟨"Meta", some "f", none, none⟩ = .ok (⟨"Meta", some "f", none, none⟩, []))
  ∧ (ChatRoom.create_channels ⟨HttpResp.err, HttpResp.err⟩
        ⟨"Puz", false, 1, ⟨some "g", none⟩, [⟨"Meta", 0, some ⟨some "f"⟩⟩], []⟩
        ⟨"Puz", none, some "p", some "u"⟩ = .ok (⟨"Puz", none, some "p", some "u"⟩, [])) :=
  ⟨create_channels_populated_no_op _ _ _ (fun _ => by decide)
      (fun hfalse => absurd hfalse (by decide)),
   create_channels_populated_no_op _ _ _ (fun hfalse => absurd hfalse (by decide))
      (fun _ => by decide)⟩

/-- C3 (amended): for a non-meta puzzle (truthy guild id, gateway success
returning a truthy post id), `create_channels` issues exactly one
post-creation request tagged `NEW_TAG` under the oldest-created meta's chat
room's stored forum-channel id — provided that meta chat room exists (the
code does not additionally require its forum-channel id to be non-null) —
and only when this room's post id is null; it stores the returned post id
and the built URL.  In every other configuration (no linked meta, meta chat
room absent, or post id already populated) it issues no request. -/
theorem create_channels_non_meta_creates_post
    (env : GatewayEnv) (puzzle : Puzzle) (room : ChatRoom) (d : RespDict) (g pid : String)
    (hmeta : puzzle.is_meta = false)
    (hg : puzzle.settings.discord_guild_id = some g)
    (hgt : g.isEmpty = false)
    (hresp : env.post_resp = HttpResp.json d)
    (hid : d.id = some pid)
    (hpidt : pid.isEmpty = false) :
    (∀ m0 rest mcr, order_by_created_on puzzle.metas = m0 :: rest →
        m0.chat_room = some mcr → room.post_id = none →
        ChatRoom.create_channels env puzzle room =
          .ok ({ room with post_id := some pid, post_url := some ("https://discord.com/channels/" ++ g ++ "/" ++ pid) },
               [GatewayReq.postThreads mcr.forum_channel_id puzzle.name "" [toString NEW_TAG]]))
  ∧ (puzzle.metas = [] → ChatRoom.create_channels env puzzle room = .ok (room, []))
  ∧ (∀ m0 rest, order_by_created_on puzzle.metas = m0 :: rest → m0.chat_room = none →
        ChatRoom.create_channels env puzzle room = .ok (room, []))
  ∧ (room.post_id ≠ none → ChatRoom.create_channels env puzzle room = .ok (room, [])) := by
  refine ⟨?_, ?_, ?_, ?_⟩
  · intro m0 rest mcr horder hcr hpost
    simp [ChatRoom.create_channels, ChatRoom._get_forum_channel_name, hmeta, horder,
          hcr, hpost, create_post, hresp, hid,
          DiscordChatService.create_channel_url, truthy, hg, hgt, hpidt]
  · intro hmetas
    simp [ChatRoom.create_channels, ChatRoom._get_forum_channel_name, hmeta, hmetas,
          order_by_created_on]
  · intro m0 rest horder hcr
    simp [ChatRoom.create_channels, ChatRoom._get_forum_channel_name, hmeta, horder, hcr]
  · intro hpost
    cases horder : order_by_created_on puzzle.metas with
    | nil =>
      simp [ChatRoom.create_channels, ChatRoom._get_forum_channel_name, hmeta, horder]
    | cons m0 rest =>
      cases hcr : m0.chat_room with
      | none =>
        simp [ChatRoom.create_channels, ChatRoom._get_forum_channel_name, hmeta, horder, hcr]
      | some mcr =>
        simp [ChatRoom.create_channels, ChatRoom._get_forum_channel_name, hmeta, horder,
              hcr, hpost]

/-- C3 witness: concrete non-meta puzzle whose oldest meta's chat room stores
forum-channel id `"f"`; one tagged post-creation request, id and URL stored. -/
theorem create_channels_non_meta_creates_post_witness :
    ChatRoom.create_channels ⟨HttpResp.err, HttpResp.json ⟨some "p", none⟩⟩
      ⟨"Puz", false, 1, ⟨some "g", some "ann"⟩, [⟨"Meta", 0, some ⟨some "f"⟩⟩], []⟩
      ⟨"Puz", none, none, none⟩
    = .ok (⟨"Puz", none, some "p", some "https://discord.com/channels/g/p"⟩,
        [GatewayReq.postThreads (some "f") "Puz" "" [toString NEW_TAG]]) :=
  (create_channels_non_meta_creates_post
    ⟨HttpResp.err, HttpResp.json ⟨some "p", none⟩⟩
    ⟨"Puz", false, 1, ⟨some "g", some "ann"⟩, [⟨"Meta", 0, some ⟨some "f"⟩⟩], []⟩
    ⟨"Puz", none, none, none⟩ ⟨some "p", none⟩ "g" "p"
    rfl rfl rfl rfl rfl rfl).1
    ⟨"Meta", 0, some ⟨some "f"⟩⟩ [] ⟨some "f"⟩ rfl rfl rfl

/-- C3 counterexample: the claim requires a post-creation request to be
issued only when the resolved meta's ChatRoom already has a stored
forum-channel id; here that id is null (`none`), yet `create_channels`
still issues one post-creation request (with a null parent forum channel). -/
theorem create_channels_post_without_meta_forum_id :
    (ChatRoom.create_channels ⟨HttpResp.err, HttpResp.json ⟨some "p", none⟩⟩
        ⟨"Puz", false, 1, ⟨some "g", some "ann"⟩, [⟨"Meta", 0, some ⟨none⟩⟩], []⟩
        ⟨"Puz", none, none, none⟩
      = .ok (⟨"Puz", none, some "p", some "https://discord.com/channels/g/p"⟩,
          [GatewayReq.postThreads none "Puz" "" [toString NEW_TAG]]))
  ∧ (MetaPuzzle.chat_room ⟨"Meta", 0, some ⟨none⟩⟩).map MetaChatRoom.forum_channel_id
      = some none :=
  ⟨rfl, rfl⟩

/-- C1 (code bug): for a non-meta ChatRoom with no stored post id whose
gateway `create_post` call fails, the suppressed failure yields a null post
id, which `create_channels` then feeds into `create_channel_url`; its
precondition check raises, so the exception propagates to the caller instead
of returning normally — contradicting the spec's failure policy. -/
theorem create_channels_gateway_failure_raises :
    ChatRoom.create_channels ⟨HttpResp.err, HttpResp.err⟩
      ⟨"Puz", false, 1, ⟨some "g", none⟩, [⟨"Meta", 0, some ⟨some "f"⟩⟩], []⟩
      ⟨"Puz", none, none, none⟩
    = .error "Missing guild_id or channel_id" := rfl

/-- C2 counterexample: for the priority tag `HIGH_PRIORITY`,
`ChatRoom.handle_tag_added` returns after the direct chat notification and
never forwards the tag to the gateway's service-specific tag-handling hook
(the produced event list contains no forwarding event), refuting "for every
tag name ... forwards the tag to the gateway's service-specific tag-handling
logic". -/
theorem handle_tag_added_priority_not_forwarded :
    (ChatRoom.handle_tag_added ⟨"Puz", none, some "p", none⟩
        ⟨"Puz", false, 1, ⟨some "g", some "ann"⟩, [], []⟩ HIGH_PRIORITY
      = [RoomEvent.sendToPost "p" ("This puzzle was marked " ++ HIGH_PRIORITY) []])
  ∧ ((ChatRoom.handle_tag_added ⟨"Puz", none, some "p", none⟩
        ⟨"Puz", false, 1, ⟨some "g", some "ann"⟩, [], []⟩ HIGH_PRIORITY).filter
        RoomEvent.isForward = []) :=
  ⟨rfl, rfl⟩

/-- C2 (amended): `ChatRoom.handle_tag_added` forwards every non-priority
tag to the gateway's service-specific tag-handling hook; the priority tags
`HIGH_PRIORITY` and `LOW_PRIORITY` are not forwarded and instead send a
direct chat notification to the room's post when a post id is stored (a
no-op otherwise). -/
theorem handle_tag_added_dispatch (room : ChatRoom) (puzzle : Puzzle) (tag : String) :
    (tag ≠ HIGH_PRIORITY → tag ≠ LOW_PRIORITY →
       ChatRoom.handle_tag_added room puzzle tag =
         [RoomEvent.forwardTagAdded
            puzzle.settings.discord_puzzle_announcements_channel_id tag])
  ∧ ((tag = HIGH_PRIORITY ∨ tag = LOW_PRIORITY) → ∀ p, room.post_id = some p →
       p.isEmpty = false →
       ChatRoom.handle_tag_added room puzzle tag =
         [RoomEvent.sendToPost p ("This puzzle was marked " ++ tag) []])
  ∧ ((tag = HIGH_PRIORITY ∨ tag = LOW_PRIORITY) → truthy room.post_id = false →
       ChatRoom.handle_tag_added room puzzle tag = []) := by
  refine ⟨?_, ?_, ?_⟩
  · intro h1 h2
    simp [ChatRoom.handle_tag_added, h1, h2]
  · intro hpr p hp hpe
    simp [ChatRoom.handle_tag_added, hpr, ChatRoom.send_message, hp, truthy, hpe]
  · intro hpr hfalsy
    simp [ChatRoom.handle_tag_added, hpr, ChatRoom.send_message, hfalsy]

/-- C2 witness: a non-priority tag is forwarded; `HIGH_PRIORITY` on a room
with a stored post id produces the direct notification. -/
theorem handle_tag_added_dispatch_witness :
    (ChatRoom.handle_tag_added ⟨"Puz", none, some "p", none⟩
        ⟨"Puz", false, 1, ⟨some "g", some "ann"⟩, [], []⟩ "extraction"
      = [RoomEvent.forwardTagAdded (some "ann") "extraction"])
  ∧ (ChatRoom.handle_tag_added ⟨"Puz", none, some "p", none⟩
        ⟨"Puz", false, 1, ⟨some "g", some "ann"⟩, [], []⟩ LOW_PRIORITY
      = [RoomEvent.sendToPost "p" ("This puzzle was marked " ++ LOW_PRIORITY) []]) :=
  ⟨(handle_tag_added_dispatch ⟨"Puz", none, some "p", none⟩
      ⟨"Puz", false, 1, ⟨some "g", some "ann"⟩, [], []⟩ "extraction").1
      (by decide) (by decide),
   (handle_tag_added_dispatch ⟨"Puz", none, some "p", none⟩
      ⟨"Puz", false, 1, ⟨some "g", some "ann"⟩, [], []⟩ LOW_PRIORITY).2.1
      (Or.inr rfl) "p" rfl rfl⟩

/-- C6: with a stored post id, `handle_puzzle_solved` overwrites the post's
remote tag set with exactly `[SOLVED_TAG]` and `handle_puzzle_unsolved` with
exactly `[WORKING_TAG]`, whatever tags were applied before (overwrite, not
union); hence solved followed by unsolved leaves exactly `[WORKING_TAG]`. -/
theorem solved_then_unsolved_overwrite (room : ChatRoom) (remote : String → List Nat)
    (p : String) (hp : room.post_id = some p) (hpe : p.isEmpty = false) :
    (ChatRoom.handle_puzzle_solved room remote p = [SOLVED_TAG])
  ∧ (ChatRoom.handle_puzzle_unsolved room remote p = [WORKING_TAG])
  ∧ (ChatRoom.handle_puzzle_unsolved room (ChatRoom.handle_puzzle_solved room remote) p
      = [WORKING_TAG]) := by
  simp [ChatRoom.handle_puzzle_solved, ChatRoom.handle_puzzle_unsolved, hp, truthy, hpe,
        edit_post_tags]

/-- C6 witness: concrete room and remote state with pre-existing tags. -/
theorem solved_then_unsolved_overwrite_witness :
    ChatRoom.handle_puzzle_unsolved ⟨"Puz", none, some "p", none⟩
      (ChatRoom.handle_puzzle_solved ⟨"Puz", none, some "p", none⟩
        (fun _ => [NEW_TAG, STUCK_TAG])) "p" = [WORKING_TAG] :=
  (solved_then_unsolved_overwrite ⟨"Puz", none, some "p", none⟩
    (fun _ => [NEW_TAG, STUCK_TAG]) "p" rfl rfl).2.2

/-- C8: `ChatRoom.send_message` issues zero outbound events when no post id
is stored, and forwards the message with its embedded links to the gateway's
`send_message` exactly once when a (truthy) post id is stored. -/
theorem send_message_post_guard (room : ChatRoom) (msg : String)
    (urls : List (String × String)) :
    (room.post_id = none → ChatRoom.send_message room msg urls = [])
  ∧ (∀ p, room.post_id = some p → p.isEmpty = false →
       ChatRoom.send_message room msg urls = [RoomEvent.sendToPost p msg urls]) := by
  constructor
  · intro h
    simp [ChatRoom.send_message, h, truthy]
  · intro p h hpe
    simp [ChatRoom.send_message, h, truthy, hpe]

/-- C8 witness: no post id yields no event; a stored post id yields exactly
one forwarded message. -/
theorem send_message_post_guard_witness :
    (ChatRoom.send_message ⟨"Puz", none, none, none⟩ "hi" [("v", "u")] = [])
  ∧ (ChatRoom.send_message ⟨"Puz", none, some "p", none⟩ "hi" [("v", "u")]
      = [RoomEvent.sendToPost "p" "hi" [("v", "u")]]) :=
  ⟨(send_message_post_guard ⟨"Puz", none, none, none⟩ "hi" [("v", "u")]).1 rfl,
   (send_message_post_guard ⟨"Puz", none, some "p", none⟩ "hi" [("v", "u")]).2 "p" rfl rfl⟩

/-- C9: `DiscordChatService.handle_tag_added` resolves the role as the first
`ChatRole` (in table order) whose name matches the tag case-insensitively
within the puzzle's hunt; a match yields exactly one announcement mentioning
that role's remote id, no match yields none; a match exists exactly when some
role of the table matches hunt and name. -/
theorem discord_tag_added_resolution (roles : List ChatRole) (annId : Option String)
    (puzzle : Puzzle) (tag : String) (a : String)
    (hann : annId = some a) (hae : a.isEmpty = false) :
    ((roles.find? (fun r => r.hunt == puzzle.hunt && lowerStr r.name == lowerStr tag)).isSome
        ↔ ∃ r ∈ roles, r.hunt = puzzle.hunt ∧ lowerStr r.name = lowerStr tag)
  ∧ (roles.find? (fun r => r.hunt == puzzle.hunt && lowerStr r.name == lowerStr tag) = none →
       DiscordChatService.handle_tag_added roles annId puzzle tag = [])
  ∧ (∀ role,
       roles.find? (fun r => r.hunt == puzzle.hunt && lowerStr r.name == lowerStr tag)
          = some role →
       DiscordChatService.handle_tag_added roles annId puzzle tag =
         [GatewayReq.patchMessage a
            (puzzle.name ++ " was tagged with <@&" ++ role.role_id ++ ">")
            puzzle.field_url_map]) := by
  refine ⟨?_, ?_, ?_⟩
  · rw [List.find?_isSome]
    constructor
    · rintro ⟨r, hr, hpr⟩
      simp only [Bool.and_eq_true, beq_iff_eq] at hpr
      exact ⟨r, hr, hpr⟩
    · rintro ⟨r, hr, h1, h2⟩
      exact ⟨r, hr, by simp [h1, h2]⟩
  · intro h
    rw [← filter_head?_eq_find?] at h
    simp [DiscordChatService.handle_tag_added, h]
  · intro role h
    rw [← filter_head?_eq_find?] at h
    simp [DiscordChatService.handle_tag_added, h, DiscordChatService.announce,
          hann, truthy, hae]

/-- C9 witness: a role table with a case-insensitively matching role in the
hunt produces the mention announcement; an unmatched tag produces none. -/
theorem discord_tag_added_resolution_witness :
    (DiscordChatService.handle_tag_added [⟨1, "Extraction", "42"⟩] (some "ann")
        ⟨"Puz", false, 1, ⟨some "g", some "ann"⟩, [], []⟩ "EXTRACTION"
      = [GatewayReq.patchMessage "ann" "Puz was tagged with <@&42>" []])
  ∧ (DiscordChatService.handle_tag_added [⟨1, "Extraction", "42"⟩] (some "ann")
        ⟨"Puz", false, 1, ⟨some "g", some "ann"⟩, [], []⟩ "stuck"
      = []) :=
  ⟨(discord_tag_added_resolution [⟨1, "Extraction", "42"⟩] (some "ann")
      ⟨"Puz", false, 1, ⟨some "g", some "ann"⟩, [], []⟩ "EXTRACTION" "ann"
      rfl rfl).2.2 ⟨1, "Extraction", "42"⟩ (by decide),
   (discord_tag_added_resolution [⟨1, "Extraction", "42"⟩] (some "ann")
      ⟨"Puz", false, 1, ⟨some "g", some "ann"⟩, [], []⟩ "stuck" "ann"
      rfl rfl).2.1 (by decide)⟩

/-- C7: every HTTP-exchange gateway operation returns normally for every
remote behaviour (network failure, malformed body, any decoded response):
`send_message`, `create_forum_post`, `add_tag_to_post`,
`remove_tag_from_post`, `edit_forum_post_name`, and channel creation on a
truthy guild id.  Only missing-required-identifier precondition checks raise:
`create_forum_channel` on a falsy guild id and `create_channel_url` on a
falsy guild or channel id. -/
theorem gateway_ops_error_policy :
    ∀ (net_ok : Bool) (resp : HttpResp) (tenv : TagEnv) (remote : List String)
      (g c : Option String) (cid msg nm ct : String)
      (urls : List (String × String)) (tg : Option Nat) (tags : Option (List Nat)),
      exceptOk (DiscordChatService.send_message net_ok cid msg urls) = true
    ∧ exceptOk (DiscordChatService.create_forum_post resp g c nm ct tags) = true
    ∧ exceptOk (DiscordChatService.add_tag_to_post tenv remote cid tg) = true
    ∧ exceptOk (DiscordChatService.remove_tag_from_post tenv remote cid tg) = true
    ∧ exceptOk (DiscordChatService.edit_forum_post_name net_ok cid nm) = true
    ∧ (truthy g = true →
        exceptOk (DiscordChatService.create_forum_channel resp g nm) = true)
    ∧ (truthy g = false →
        DiscordChatService.create_forum_channel resp g nm = .error "Missing guild_id")
    ∧ (truthy g = false ∨ truthy c = false →
        DiscordChatService.create_channel_url g c
          = .error "Missing guild_id or channel_id") := by
  intro net_ok resp tenv remote g c cid msg nm ct urls tg tags
  refine ⟨?_, ?_, ?_, ?_, ?_, ?_, ?_, ?_⟩
  · cases net_ok <;> simp [DiscordChatService.send_message, exceptOk]
  · rcases resp with _ | _ | d
    · simp [DiscordChatService.create_forum_post, exceptOk]
    · simp [DiscordChatService.create_forum_post, exceptOk]
    · rcases hid : d.id with _ | tid
      · simp [DiscordChatService.create_forum_post, exceptOk, hid]
      · rcases hurl : DiscordChatService.create_channel_url g (some tid) with e | u <;>
          simp [DiscordChatService.create_forum_post, exceptOk, hid, hurl]
  · rcases tg with _ | t
    · simp [DiscordChatService.add_tag_to_post, exceptOk]
    · simp only [DiscordChatService.add_tag_to_post]
      split_ifs <;> simp [exceptOk]
  · rcases tg with _ | t
    · simp [DiscordChatService.remove_tag_from_post, exceptOk]
    · simp only [DiscordChatService.remove_tag_from_post]
      split_ifs <;> simp [exceptOk]
  · cases net_ok <;> simp [DiscordChatService.edit_forum_post_name, exceptOk]
  · intro hg
    rcases resp with _ | _ | d
    · simp [DiscordChatService.create_forum_channel, hg,
            DiscordChatService._create_channel_impl, exceptOk]
    · simp [DiscordChatService.create_forum_channel, hg,
            DiscordChatService._create_channel_impl, exceptOk]
    · rcases hid : d.id with _ | cid2 <;>
        simp [DiscordChatService.create_forum_channel, hg,
              DiscordChatService._create_channel_impl, exceptOk, hid]
  · intro hg
    simp [DiscordChatService.create_forum_channel, hg]
  · intro hgc
    rcases hgc with h | h <;> simp [DiscordChatService.create_channel_url, h]

/-- C7 witness: a network failure on `send_message` still returns normally;
a falsy guild id makes `create_forum_channel` raise its precondition error. -/
theorem gateway_ops_error_policy_witness :
    exceptOk (DiscordChatService.send_message false "c" "m" []) = true
  ∧ DiscordChatService.create_forum_channel HttpResp.err none "f"
      = .error "Missing guild_id" :=
  ⟨(gateway_ops_error_policy false HttpResp.err ⟨true, true, true⟩ [] none none
      "c" "m" "f" "" [] none none).1,
   (gateway_ops_error_policy false HttpResp.err ⟨true, true, true⟩ [] none none
      "c" "m" "f" "" [] none none).2.2.2.2.2.2.1 rfl⟩

/-- C10: with honest GET/PATCH exchanges, `add_tag_to_post` issues its PATCH
exactly when the tag is absent from the post's applied-tag set and
`remove_tag_from_post` exactly when it is present; a `None` tag id issues no
request at all; and both operations are idempotent on the remote applied-tag
set (the set being duplicate-free): a second identical application leaves the
set unchanged. -/
theorem tag_ops_set_semantics (env : TagEnv) (remote : List String) (p : String) (t : Nat)
    (hg : env.get_resp_ok = true) (hh : env.get_has_tags = true)
    (hp : env.patch_ok = true) (hnd : remote.Nodup) :
    (DiscordChatService.add_tag_to_post env remote p none = .ok (remote, [])
      ∧ DiscordChatService.remove_tag_from_post env remote p none = .ok (remote, []))
  ∧ (toString t ∈ remote →
       DiscordChatService.add_tag_to_post env remote p (some t)
         = .ok (remote, [GatewayReq.getChannel p]))
  ∧ (toString t ∉ remote →
       DiscordChatService.add_tag_to_post env remote p (some t)
         = .ok (remote ++ [toString t],
             [GatewayReq.getChannel p,
              GatewayReq.patchAppliedTags p (remote ++ [toString t])]))
  ∧ (toString t ∉ remote →
       DiscordChatService.remove_tag_from_post env remote p (some t)
         = .ok (remote, [GatewayReq.getChannel p]))
  ∧ (toString t ∈ remote →
       DiscordChatService.remove_tag_from_post env remote p (some t)
         = .ok (remote.erase (toString t),
             [GatewayReq.getChannel p,
              GatewayReq.patchAppliedTags p (remote.erase (toString t))]))
  ∧ (∀ r1 q1, DiscordChatService.add_tag_to_post env remote p (some t) = .ok (r1, q1) →
       ∃ q2, DiscordChatService.add_tag_to_post env r1 p (some t) = .ok (r1, q2))
  ∧ (∀ r1 q1, DiscordChatService.remove_tag_from_post env remote p (some t) = .ok (r1, q1) →
       ∃ q2, DiscordChatService.remove_tag_from_post env r1 p (some t) = .ok (r1, q2)) := by
  have hadd_mem : ∀ l : List String, toString t ∈ l →
      DiscordChatService.add_tag_to_post env l p (some t)
        = .ok (l, [GatewayReq.getChannel p]) := by
    intro l hm
    simp [DiscordChatService.add_tag_to_post, hg, hh, hm]
  have hadd_notmem : ∀ l : List String, toString t ∉ l →
      DiscordChatService.add_tag_to_post env l p (some t)
        = .ok (l ++ [toString t],
            [GatewayReq.getChannel p,
             GatewayReq.patchAppliedTags p (l ++ [toString t])]) := by
    intro l hm
    simp [DiscordChatService.add_tag_to_post, hg, hh, hm, hp]
  have hrem_mem : ∀ l : List String, toString t ∈ l →
      DiscordChatService.remove_tag_from_post env l p (some t)
        = .ok (l.erase (toString t),
            [GatewayReq.getChannel p,
             GatewayReq.patchAppliedTags p (l.erase (toString t))]) := by
    intro l hm
    simp [DiscordChatService.remove_tag_from_post, hg, hh, hm, hp]
  have hrem_notmem : ∀ l : List String, toString t ∉ l →
      DiscordChatService.remove_tag_from_post env l p (some t)
        = .ok (l, [GatewayReq.getChannel p]) := by
    intro l hm
    simp [DiscordChatService.remove_tag_from_post, hg, hh, hm]
  refine ⟨⟨?_, ?_⟩, hadd_mem remote, hadd_notmem remote, hrem_notmem remote,
          hrem_mem remote, ?_, ?_⟩
  · simp [DiscordChatService.add_tag_to_post]
  · simp [DiscordChatService.remove_tag_from_post]
  · intro r1 q1 h1
    by_cases hm : toString t ∈ remote
    · rw [hadd_mem remote hm] at h1
      obtain ⟨rfl, -⟩ : remote = r1 ∧ [GatewayReq.getChannel p] = q1 := by
        simpa using h1
      exact ⟨[GatewayReq.getChannel p], hadd_mem remote hm⟩
    · rw [hadd_notmem remote hm] at h1
      obtain ⟨rfl, -⟩ : remote ++ [toString t] = r1 ∧ _ = q1 := by
        simpa using h1
      exact ⟨[GatewayReq.getChannel p],
        hadd_mem _ (by simp)⟩
  · intro r1 q1 h1
    by_cases hm : toString t ∈ remote
    · rw [hrem_mem remote hm] at h1
      obtain ⟨rfl, -⟩ : remote.erase (toString t) = r1 ∧ _ = q1 := by
        simpa using h1
      have hout : toString t ∉ remote.erase (toString t) := by
        intro hin
        rcases (List.Nodup.mem_erase_iff hnd).mp hin with ⟨hne, -⟩
        exact hne rfl
      exact ⟨[GatewayReq.getChannel p], hrem_notmem _ hout⟩
    · rw [hrem_notmem remote hm] at h1
      obtain ⟨rfl, -⟩ : remote = r1 ∧ [GatewayReq.getChannel p] = q1 := by
        simpa using h1
      exact ⟨[GatewayReq.getChannel p], hrem_notmem remote hm⟩

/-- C10 witness: a `None` tag id issues no request; adding a tag already in
the applied set issues only the GET, no modification request. -/
theorem tag_ops_set_semantics_witness :
    DiscordChatService.add_tag_to_post ⟨true, true, true⟩ ["5"] "p" none = .ok (["5"], [])
  ∧ DiscordChatService.add_tag_to_post ⟨true, true, true⟩ ["5"] "p" (some 5)
      = .ok (["5"], [GatewayReq.getChannel "p"]) :=
  ⟨(tag_ops_set_semantics ⟨true, true, true⟩ ["5"] "p" 5 rfl rfl rfl (by decide)).1.1,
   (tag_ops_set_semantics ⟨true, true, true⟩ ["5"] "p" 5 rfl rfl rfl (by decide)).2.1
     (by decide)⟩

end Cardboard
